import Mathlib

/-
Verification of the TF_strategy connection/subscription lifecycle layer.

The Python sources are embedded shallowly:

  * Python dicts become association lists with unique keys (dlookup,
    dinsert, dremove, dmodify below reproduce dict lookup, item
    assignment, pop and in-place value mutation, preserving insertion
    order exactly as CPython does).
  * Async methods become pure state-passing functions; code that can
    raise becomes Except-valued.
  * uuid4 token minting is nondeterministic, so freshly minted tokens are
    passed as explicit arguments; theorems carry the freshness facts
    (distinctness, 36-character format) as hypotheses where they matter.
-/

namespace TFStrategy

section PyDict

variable {κ β : Type} [DecidableEq κ]

/-- Python dict lookup d.get(k): first (and only) binding of k. -/
def dlookup : List (κ × β) → κ → Option β
  | [], _ => none
  | p :: ps, k => if p.1 = k then some p.2 else dlookup ps k

/-- Python dict item assignment d[k] = v: overwrite in place if the key
exists, otherwise append (CPython preserves insertion order). -/
def dinsert : List (κ × β) → κ → β → List (κ × β)
  | [], k, v => [(k, v)]
  | p :: ps, k, v => if p.1 = k then (k, v) :: ps else p :: dinsert ps k v

/-- Python dict removal d.pop(k, ...): drop the binding of k if present. -/
def dremove : List (κ × β) → κ → List (κ × β)
  | [], _ => []
  | p :: ps, k => if p.1 = k then ps else p :: dremove ps k

/-- In-place mutation of the value stored under k (a method call on the
object obtained from the dict mutates the dict entry itself). -/
def dmodify : List (κ × β) → κ → (β → β) → List (κ × β)
  | [], _, _ => []
  | p :: ps, k, f => if p.1 = k then (p.1, f p.2) :: ps else p :: dmodify ps k f

end PyDict

/-- Model of common.async_event.AsyncEvent: a dict from handler token to
handler, guarded by a lock for structural mutation. The handler type is a
parameter H (handlers are opaque async callables). -/
structure AsyncEvent (H : Type) where
  handlers : List (String × H)
deriving DecidableEq

/-- Fresh AsyncEvent(): empty handler dict. -/
def AsyncEvent.empty {H : Type} : AsyncEvent H := ⟨[]⟩

/-- AsyncEvent.add(key, handler): inserts only if the key is absent
(source: if key not in self.handlers dict). -/
def AsyncEvent.add {H : Type} (e : AsyncEvent H) (key : String) (handler : H) :
    AsyncEvent H :=
  if (dlookup e.handlers key).isSome then e else ⟨e.handlers ++ [(key, handler)]⟩

/-- AsyncEvent.remove(key): pop with default None, i.e. drop if present. -/
def AsyncEvent.remove {H : Type} (e : AsyncEvent H) (key : String) : AsyncEvent H :=
  ⟨dremove e.handlers key⟩

/-- AsyncEvent.is_empty(): Python not self.handlers. -/
def AsyncEvent.is_empty {H : Type} (e : AsyncEvent H) : Bool :=
  e.handlers.isEmpty

/-- The snapshot taken under the lock at the start of emit:
list(self.handlers.values()). -/
def AsyncEvent.snapshot {H : Type} (e : AsyncEvent H) : List H :=
  e.handlers.map Prod.snd

/-- A structural mutation that may be requested by another task while an
emit is in flight (after the snapshot was taken and the lock released). -/
inductive EventMutation (H : Type) where
  | addH (key : String) (handler : H)
  | removeH (key : String)

/-- Apply one concurrent mutation to the handler map. -/
def AsyncEvent.applyMutation {H : Type} (e : AsyncEvent H) :
    EventMutation H → AsyncEvent H
  | .addH k h => e.add k h
  | .removeH k => e.remove k

/-- Deliveries performed by one emit call with a given payload: the
snapshot is taken under the lock, the lock is released, and every
snapshotted handler is invoked with that same payload (asyncio.gather
over the snapshot). The delivery list is built by walking the snapshot. -/
def AsyncEvent.emitDeliveries {H P : Type} (e : AsyncEvent H) (payload : P) :
    List (H × P) :=
  e.handlers.foldl (fun acc kv => acc ++ [(kv.2, payload)]) []

/-- One emit racing with a batch of add/remove calls that the lock
serializes after the snapshot: the deliveries come from the snapshot,
the mutations land on the map. Models emit releasing the lock before
invoking handlers (source lines 32-39 of async_event.py). -/
def AsyncEvent.emitWithMutations {H P : Type} (e : AsyncEvent H) (payload : P)
    (muts : List (EventMutation H)) : List (H × P) × AsyncEvent H :=
  (e.emitDeliveries payload, muts.foldl AsyncEvent.applyMutation e)

/-- Execution of one emit when handlers can fail: asyncio.gather wraps
every snapshotted coroutine in a task and runs them all; with
return_exceptions=False a failing task makes the awaiting emit raise, but
the sibling tasks are not cancelled and still run. Each entry of the
result records the token and the outcome of that handler invocation. -/
def AsyncEvent.emitRun {P E : Type} (e : AsyncEvent (P → Except E Unit))
    (payload : P) : List (String × Except E Unit) :=
  e.handlers.foldl (fun acc kv => acc ++ [(kv.1, kv.2 payload)]) []

/-- Model of common.enums.Status (StrEnum): member names exactly as in the
source, including the member spelled EXPIRED. -/
inductive Status where
  | New
  | PendingNew
  | PartiallyFilled
  | Filled
  | Canceled
  | PendingCancel
  | Rejected
  | EXPIRED
deriving DecidableEq

/-- The member table of the Status enum (name to member), as the class
body declares it. -/
def Status.members : List (String × Status) :=
  [("New", .New), ("PendingNew", .PendingNew),
   ("PartiallyFilled", .PartiallyFilled), ("Filled", .Filled),
   ("Canceled", .Canceled), ("PendingCancel", .PendingCancel),
   ("Rejected", .Rejected), ("EXPIRED", .EXPIRED)]

/-- Python attribute access Status.<name>: resolves against the member
table and raises AttributeError for a name that is not a member. -/
def Status.attr (name : String) : Except String Status :=
  match dlookup Status.members name with
  | some s => .ok s
  | none => .error ("AttributeError: " ++ name)

/-- Model of common.schemas.OrderReport restricted to the fields the
facade cache logic reads (status is Optional in the source). -/
structure OrderReport where
  symbol : String
  order_id : String
  status : Option Status
deriving DecidableEq

namespace BinanceWrapper

/-- Model of BinanceWrapper._update_order_reports (wrapper.py 434-439)
acting on the open-orders cache. The source evaluates the list literal
[Status.Canceled, Status.Rejected, Status.Expired] left to right; each
element is an attribute access on the Status enum. dict.pop is called
without a default, so a missing order id would raise KeyError. -/
def _update_order_reports (order_report : OrderReport)
    (open_orders : List (String × OrderReport)) :
    Except String (List (String × OrderReport)) := do
  let canceled ← Status.attr "Canceled"
  let rejected ← Status.attr "Rejected"
  let expired ← Status.attr "Expired"
  if order_report.status = some canceled ∨ order_report.status = some rejected ∨
      order_report.status = some expired then
    match dlookup open_orders order_report.order_id with
    | some _ => .ok (dremove open_orders order_report.order_id)
    | none => .error ("KeyError: " ++ order_report.order_id)
  else
    .ok (dinsert open_orders order_report.order_id order_report)

end BinanceWrapper

/-- Model of the KlineKey namedtuple of binance/ws/_inner_ws_schemas.py:
fields symbol, time_interval, channel with channel defaulting to
"kline". -/
structure KlineKey where
  symbol : String
  time_interval : String
  channel : String := "kline"
deriving DecidableEq

/-- WSKeyCreator.kline_key: normalizes the symbol to lowercase (interval
strings pass through; the Symbol or enum arguments reduce to their
underlying strings first, which is how they are modelled here). -/
def WSKeyCreator.kline_key (symbol : String) (time_interval : String) : KlineKey :=
  { symbol := symbol.toLower, time_interval := time_interval }

/-- An upstream control frame produced by PublicSubscriptionCreator:
method, monotonically increasing id, params list (orjson serialization is
out of scope; the frame is kept structured). -/
structure ControlMsg where
  method : String
  id : Nat
  params : List String
deriving DecidableEq

/-- PublicSubscriptionCreator.kline_subscription_msg: a SUBSCRIBE frame
with one param, lowercased-symbol@kline_interval. The id comes from the
creator id counter (class-level count(1) in the source; modelled as the
id argument threaded through the client state). -/
def PublicSubscriptionCreator.kline_subscription_msg (id : Nat)
    (symbol time_interval : String) : ControlMsg :=
  { method := "SUBSCRIBE", id := id,
    params := [symbol.toLower ++ "@kline_" ++ time_interval] }

/-- PublicSubscriptionCreator.kline_unsubscription_msg: same frame with
method UNSUBSCRIBE. -/
def PublicSubscriptionCreator.kline_unsubscription_msg (id : Nat)
    (symbol time_interval : String) : ControlMsg :=
  { method := "UNSUBSCRIBE", id := id,
    params := [symbol.toLower ++ "@kline_" ++ time_interval] }

/-- A value stored in the BinancePublicWS handlers dict. The source
stores KlineKey namedtuples there, but the dict-comprehension in
_unsubscribe (missing .items()) would, on 2-character tokens, rebind the
dict to single-character-string pairs; the chr constructor keeps the
model well-typed on that path. -/
inductive HandlerVal where
  | key (k : KlineKey)
  | chr (c : String)
deriving DecidableEq

/-- Model of binance/ws/public_ws.py BinancePublicWS restricted to a
started client: the subscriptions dict (key to fan-out event), the
handlers dict (token to key), the ordered list of control frames passed
to listener.send, and the creator id counter (count(1), so it starts
at 1). -/
structure BinancePublicWS (H : Type) where
  subscriptions : List (KlineKey × AsyncEvent H)
  handlers : List (String × HandlerVal)
  sent : List ControlMsg
  nextId : Nat
deriving DecidableEq

/-- A freshly started BinancePublicWS: empty dicts, nothing sent. -/
def BinancePublicWS.empty {H : Type} : BinancePublicWS H :=
  { subscriptions := [], handlers := [], sent := [], nextId := 1 }

/-- BinancePublicWS._make_subscription_msg: dispatch on the key shape and
the subscribe flag (keys here are always KlineKey, the only shape the
source match accepts). -/
def BinancePublicWS._make_subscription_msg (id : Nat) (subscr_key : KlineKey)
    (is_subscription : Bool) : ControlMsg :=
  if is_subscription then
    PublicSubscriptionCreator.kline_subscription_msg id subscr_key.symbol
      subscr_key.time_interval
  else
    PublicSubscriptionCreator.kline_unsubscription_msg id subscr_key.symbol
      subscr_key.time_interval

/-- BinancePublicWS._subscribe (public_ws.py 170-186): if the key has no
channel yet, send the SUBSCRIBE frame and create the fan-out event; then
record token to key and add the handler to the event. Returns the
is_new_channel flag. -/
def BinancePublicWS._subscribe {H : Type} (st : BinancePublicWS H)
    (subscr_key : KlineKey) (handler_token : String) (handler : H) :
    BinancePublicWS H × Bool :=
  let p :=
    if (dlookup st.subscriptions subscr_key).isSome then (st, false)
    else
      ({ st with
          sent := st.sent ++
            [BinancePublicWS._make_subscription_msg st.nextId subscr_key true],
          nextId := st.nextId + 1,
          subscriptions := st.subscriptions ++ [(subscr_key, AsyncEvent.empty)] },
        true)
  let st1 := p.1
  let st2 := { st1 with
    handlers := dinsert st1.handlers handler_token (HandlerVal.key subscr_key) }
  ({ st2 with
      subscriptions := dmodify st2.subscriptions subscr_key
        (fun ev => ev.add handler_token handler) },
    p.2)

/-- BinancePublicWS.kline_subscribe: computes the key, mints a uuid4
token (passed in as the token argument, since minting is
nondeterministic) and delegates to _subscribe, returning the token. -/
def BinancePublicWS.kline_subscribe {H : Type} (st : BinancePublicWS H)
    (symbol time_interval : String) (token : String) (handler : H) :
    BinancePublicWS H × String :=
  let subscr_key := WSKeyCreator.kline_key symbol time_interval
  ((st._subscribe subscr_key token handler).1, token)

/-- Unpacking a Python string into a 2-tuple: succeeds only when the
string has exactly two characters (each becoming a 1-character string),
otherwise raises ValueError. This is what `for k, v in self._handlers`
does to each dict KEY, since iterating a dict yields its keys. -/
def unpackPairs : List String → Except String (List (String × String))
  | [] => .ok []
  | s :: rest =>
    match s.toList with
    | [c1, c2] => do
      let ps ← unpackPairs rest
      .ok ((String.mk [c1], String.mk [c2]) :: ps)
    | _ => .error "ValueError: too many values to unpack"

/-- The dict comprehension in the subscr_key branch of _unsubscribe
(public_ws.py 211), which iterates the handlers dict without .items():
each key string is unpacked (ValueError unless it has exactly two
characters); the guard v != subscr_key compares a 1-character string
with a KlineKey and is therefore always true; the surviving pairs are
rebuilt into a dict. -/
def handlersComprehension (hs : List (String × HandlerVal)) (subscr_key : KlineKey) :
    Except String (List (String × HandlerVal)) := do
  let ps ← unpackPairs (hs.map Prod.fst)
  let kept := ps.filter (fun p => HandlerVal.chr p.2 ≠ HandlerVal.key subscr_key)
  .ok (kept.foldl (fun d p => dinsert d p.1 (HandlerVal.chr p.2)) [])

/-- BinancePublicWS._unsubscribe, branch taken when handler_token is
falsy (public_ws.py 210-217 with the 188-209 token branch skipped):
key_for_unsubscribe stays equal to the subscr_key argument. A truthy
subscr_key first runs the handlers dict comprehension, then
subscriptions.pop(key) — KeyError if the key is absent — and sends the
UNSUBSCRIBE frame; with both arguments falsy the function returns False
without touching anything. -/
def BinancePublicWS._unsubscribe_noToken {H : Type} (st : BinancePublicWS H)
    (subscr_key : Option KlineKey) :
    Except String (BinancePublicWS H × Option Bool) :=
  match subscr_key with
  | some k => do
    let hs ← handlersComprehension st.handlers k
    let st1 := { st with handlers := hs }
    match dlookup st1.subscriptions k with
    | none => .error "KeyError: subscriptions.pop"
    | some _ =>
      .ok ({ st1 with
              subscriptions := dremove st1.subscriptions k,
              sent := st1.sent ++ [BinancePublicWS._make_subscription_msg st1.nextId k false],
              nextId := st1.nextId + 1 },
            some true)
  | none => .ok (st, some false)

/-- BinancePublicWS._unsubscribe (public_ws.py 188-217). The token branch
pops the token from the handlers dict; on a miss, or when the stored key
is not a live subscription, it returns early (Python returns None). A hit
removes the handler from the fan-out event; if the event became empty the
key is popped from subscriptions and exactly one UNSUBSCRIBE frame is
sent. When handler_token is falsy the subscr_key branch of
_unsubscribe_noToken runs instead. The weird Python corner where both
arguments are truthy and the event does not become empty (so
key_for_unsubscribe falls back to the subscr_key argument) is modelled
faithfully. -/
def BinancePublicWS._unsubscribe {H : Type} (st : BinancePublicWS H)
    (subscr_key : Option KlineKey) (handler_token : Option String) :
    Except String (BinancePublicWS H × Option Bool) :=
  match handler_token with
  | some t =>
    if t = "" then st._unsubscribe_noToken subscr_key
    else
      let popped := dlookup st.handlers t
      let st1 := { st with handlers := dremove st.handlers t }
      match popped with
      | none => .ok (st1, none)
      | some (.chr _) => .ok (st1, none)
      | some (.key k) =>
        match dlookup st1.subscriptions k with
        | none => .ok (st1, none)
        | some ev0 =>
          let ev1 := ev0.remove t
          let st2 := { st1 with
            subscriptions := dmodify st1.subscriptions k (fun e => e.remove t) }
          let key_for : Option KlineKey := if ev1.is_empty then some k else subscr_key
          match key_for with
          | none => .ok (st2, some false)
          | some kf =>
            match dlookup st2.subscriptions kf with
            | none => .error "KeyError: subscriptions.pop"
            | some _ =>
              .ok ({ st2 with
                      subscriptions := dremove st2.subscriptions kf,
                      sent := st2.sent ++
                        [BinancePublicWS._make_subscription_msg st2.nextId k false],
                      nextId := st2.nextId + 1 },
                    some true)
  | none => st._unsubscribe_noToken subscr_key

/-- The elif chain of kline_unsubscribe, reached when handler_token is
falsy: by symbol and interval, force-unsubscribe that channel; by symbol
only, collect the matching kline keys first and force-unsubscribe each in
order; with no usable arguments, log a warning and do nothing. -/
def BinancePublicWS.kline_unsubscribe_byKey {H : Type} (st : BinancePublicWS H)
    (symbol : Option String) (time_interval : Option String) :
    Except String (BinancePublicWS H) :=
  match symbol, time_interval with
  | some s, some i => do
    let r ← st._unsubscribe (some (WSKeyCreator.kline_key s i)) none
    .ok r.1
  | some s, none =>
    let keys := (st.subscriptions.map Prod.fst).filter
      (fun k => k.symbol = s.toLower ∧ k.channel = "kline")
    keys.foldlM (fun acc k => do
      let r ← acc._unsubscribe (some k) none
      .ok r.1) st
  | none, _ => .ok st

/-- BinancePublicWS.kline_unsubscribe (public_ws.py 124-168): dispatch on
which arguments are truthy (an empty token string is falsy, so it falls
through to the elif chain; a Symbol or TimeInterval argument is truthy
whenever present). -/
def BinancePublicWS.kline_unsubscribe {H : Type} (st : BinancePublicWS H)
    (handler_token : Option String) (symbol : Option String)
    (time_interval : Option String) : Except String (BinancePublicWS H) :=
  match handler_token with
  | some t =>
    if t ≠ "" then do
      let r ← st._unsubscribe none (some t)
      .ok r.1
    else st.kline_unsubscribe_byKey symbol time_interval
  | none => st.kline_unsubscribe_byKey symbol time_interval

/-- The payload emitted to kline handlers: uppercase symbol string,
interval string, is_closed flag (the parsed Kline model itself carries no
weight in the routing claims and is abstracted away). -/
structure KlineEmit where
  symbol : String
  time_interval : String
  is_closed : Bool
deriving DecidableEq

/-- BinancePublicWS._kline_preprocessor (public_ws.py 245-278): build the
key from the frame symbol (lowercased) and interval, then index the
subscriptions dict directly — self._subscriptions[subscr_key] — which
raises KeyError when no fan-out event is registered for the key;
otherwise emit to every handler of that event. -/
def BinancePublicWS._kline_preprocessor {H : Type} (st : BinancePublicWS H)
    (s i : String) (x : Bool) : Except String (List (H × KlineEmit)) :=
  let subscr_key := WSKeyCreator.kline_key s.toLower i
  match dlookup st.subscriptions subscr_key with
  | none => .error "KeyError"
  | some ev => .ok (ev.emitDeliveries { symbol := s, time_interval := i, is_closed := x })

/-- A decoded inbound frame as _msg_preprocessing sees it after
orjson.loads: either no e field, a kline event, or some other event
type. -/
inductive PublicInboundMsg where
  | noEventField (raw : String)
  | klineEvent (s : String) (i : String) (x : Bool)
  | otherEvent (e : String)

/-- BinancePublicWS._msg_preprocessing (public_ws.py 232-243): frames
without an e field are logged at debug level and dropped; kline events go
to _kline_preprocessor; any other event type is logged at warning level
and dropped. The result is the list of handler deliveries. -/
def BinancePublicWS._msg_preprocessing {H : Type} (st : BinancePublicWS H) :
    PublicInboundMsg → Except String (List (H × KlineEmit))
  | .noEventField _ => .ok []
  | .klineEvent s i x => st._kline_preprocessor s i x
  | .otherEvent _ => .ok []

/-- Model of binance/ws/private_ws.py BinancePrivateWS restricted to a
started client: the two dedicated fan-out events. -/
structure BinancePrivateWS (H : Type) where
  wallet_eventer : AsyncEvent H
  orders_eventer : AsyncEvent H
deriving DecidableEq

/-- A freshly started BinancePrivateWS: both eventers empty. -/
def BinancePrivateWS.start {H : Type} : BinancePrivateWS H :=
  { wallet_eventer := AsyncEvent.empty, orders_eventer := AsyncEvent.empty }

/-- BinancePrivateWS.wallet_subscribe (private_ws.py 62-79): mint a uuid4
token (passed in, since minting is nondeterministic), add the handler to
the wallet eventer, return the token. -/
def BinancePrivateWS.wallet_subscribe {H : Type} (st : BinancePrivateWS H)
    (token : String) (handler : H) : BinancePrivateWS H × String :=
  ({ st with wallet_eventer := st.wallet_eventer.add token handler }, token)

/-- BinancePrivateWS.wallet_unsubscribe (private_ws.py 81-89): the source
body removes the token from the ORDERS eventer, not the wallet one. -/
def BinancePrivateWS.wallet_unsubscribe {H : Type} (st : BinancePrivateWS H)
    (handler_token : String) : BinancePrivateWS H :=
  { st with orders_eventer := st.orders_eventer.remove handler_token }

/-- BinancePrivateWS.orders_subscribe (private_ws.py 91-108). -/
def BinancePrivateWS.orders_subscribe {H : Type} (st : BinancePrivateWS H)
    (token : String) (handler : H) : BinancePrivateWS H × String :=
  ({ st with orders_eventer := st.orders_eventer.add token handler }, token)

/-- BinancePrivateWS.orders_unsubscribe (private_ws.py 110-118). -/
def BinancePrivateWS.orders_unsubscribe {H : Type} (st : BinancePrivateWS H)
    (handler_token : String) : BinancePrivateWS H :=
  { st with orders_eventer := st.orders_eventer.remove handler_token }

/-- The authentication-relevant part of the private connection: whether
the listener currently has an open transport, and the ordered list of
control messages handed to listener.send (identified by their method
field; the signed payload carries no weight for the retry claims). -/
structure PrivateWSConn where
  is_connected : Bool
  sent : List String
deriving DecidableEq

/-- BinancePrivateWS._log_on_subscription: send one session.logon
frame. -/
def PrivateWSConn._log_on_subscription (c : PrivateWSConn) : PrivateWSConn :=
  { c with sent := c.sent ++ ["session.logon"] }

/-- BinancePrivateWS._user_data_subscription: send one
userDataStream.subscribe frame. -/
def PrivateWSConn._user_data_subscription (c : PrivateWSConn) : PrivateWSConn :=
  { c with sent := c.sent ++ ["userDataStream.subscribe"] }

/-- BinancePrivateWS._on_connected: sends the logon frame. -/
def PrivateWSConn._on_connected (c : PrivateWSConn) : PrivateWSConn :=
  c._log_on_subscription

/-- An inbound acknowledgment envelope with an id field, as
_msg_preprocessing matches it (private_ws.py 162-189). -/
inductive PrivateAck where
  | logon (status : Nat)
  | userData (status : Nat)

/-- The id-dispatch of BinancePrivateWS._msg_preprocessing
(private_ws.py 162-189): a logon ack with status 200 triggers the
user-data subscribe; any other status logs an error and, while the
listener is connected, sends the logon frame again. A user-data ack with
a non-200 status resends the user-data subscribe while connected. There
is no retry counter anywhere in the class: every failure ack takes the
same branch. -/
def PrivateWSConn.processAck (c : PrivateWSConn) : PrivateAck → PrivateWSConn
  | .logon status =>
    if status = 200 then c._user_data_subscription
    else if c.is_connected then c._log_on_subscription else c
  | .userData status =>
    if status = 200 then c
    else if c.is_connected then c._user_data_subscription else c

/-- Number of logon frames sent so far on this connection. -/
def PrivateWSConn.logonCount (c : PrivateWSConn) : Nat :=
  c.sent.count "session.logon"

/-- Model of common/connection/ws_listener.py AsyncWSListener lifecycle
state: the two asyncio events and whether the connect-loop task is
alive. start_event set means the first successful connection was
signalled; stop_event set means the listener is stopped. -/
structure AsyncWSListener where
  reconnect_delay : Rat
  start_event : Bool
  stop_event : Bool
  task_running : Bool
deriving DecidableEq

/-- A freshly constructed listener: stop_event set, nothing running
(ws_listener.py 37-40). -/
def AsyncWSListener.init (delay : Rat) : AsyncWSListener :=
  { reconnect_delay := delay, start_event := false, stop_event := true,
    task_running := false }

/-- AsyncWSListener.is_started: not stop_event.is_set(). -/
def AsyncWSListener.is_started (l : AsyncWSListener) : Bool :=
  !l.stop_event

/-- AsyncWSListener.is_connected: start_event.is_set(). -/
def AsyncWSListener.is_connected (l : AsyncWSListener) : Bool :=
  l.start_event

/-- AsyncWSListener.stop (ws_listener.py 170-184): no-op when already
stopped; otherwise set the stop intent, clear the connection flag, close
the transport and cancel-and-await the connect-loop task. -/
def AsyncWSListener.stop (l : AsyncWSListener) : AsyncWSListener :=
  if l.is_started then
    { l with stop_event := true, start_event := false, task_running := false }
  else l

/-- AsyncWSListener.start (ws_listener.py 146-168): no-op when already
started; otherwise clear both events, spawn the connect loop, and block
on start_event with timeout reconnect_delay * 6. The nondeterministic
connect loop is abstracted by first_signal, the instant (if any) at
which the loop would set start_event; the wait succeeds exactly when
that instant falls within the timeout budget. On timeout the listener is
torn down via stop() and a ConnectionError is raised (returned as the
first component). -/
def AsyncWSListener.start (l : AsyncWSListener) (first_signal : Option Rat) :
    Option String × AsyncWSListener :=
  if l.is_started then (none, l)
  else
    let spawned : AsyncWSListener :=
      { l with start_event := false, stop_event := false, task_running := true }
    match first_signal with
    | some t =>
      if t ≤ l.reconnect_delay * 6 then (none, { spawned with start_event := true })
      else (some "ConnectionError", spawned.stop)
    | none => (some "ConnectionError", spawned.stop)

/-- Model of binance/wrapper.py BinanceWrapper restricted to the private
WS client its stream-subscribe methods touch. -/
structure BinanceWrapperState (H : Type) where
  private_ws : BinancePrivateWS H
deriving DecidableEq

namespace BinanceWrapper

/-- BinanceWrapper.wallet_subscribe (wrapper.py 375-390): the body awaits
the private client call and falls off the end without a return statement,
so Python returns None; the token minted by the private client is
discarded. -/
def wallet_subscribe {H : Type} (w : BinanceWrapperState H) (token : String)
    (handler : H) : BinanceWrapperState H × Option String :=
  let r := w.private_ws.wallet_subscribe token handler
  ({ w with private_ws := r.1 }, none)

/-- BinanceWrapper.orders_subscribe (wrapper.py 403-418): same shape, the
private client token is discarded and None is returned. -/
def orders_subscribe {H : Type} (w : BinanceWrapperState H) (token : String)
    (handler : H) : BinanceWrapperState H × Option String :=
  let r := w.private_ws.orders_subscribe token handler
  ({ w with private_ws := r.1 }, none)

end BinanceWrapper

/-- Subscribing a whole batch of (token, handler) pairs to the same
symbol and interval through kline_subscribe, in order. -/
def subscribeAll {H : Type} (st : BinancePublicWS H) (symbol time_interval : String)
    (ths : List (String × H)) : BinancePublicWS H :=
  ths.foldl (fun acc p => (acc.kline_subscribe symbol time_interval p.1 p.2).1) st

/-- Unsubscribing a batch of handler tokens through kline_unsubscribe, in
order. -/
def unsubscribeTokens {H : Type} (st : BinancePublicWS H) (ts : List String) :
    Except String (BinancePublicWS H) :=
  ts.foldlM (fun acc t => acc.kline_unsubscribe (some t) none none) st

/-- The shape a BinancePublicWS state has after a run of kline_subscribe
calls for one single key: one subscription entry holding the pair list l,
the handlers dict mapping each token of l to that key, a sent log and the
id counter. -/
def canonicalPWS {H : Type} (key : KlineKey) (l : List (String × H))
    (sent : List ControlMsg) (n : Nat) : BinancePublicWS H :=
  { subscriptions := [(key, ⟨l⟩)],
    handlers := l.map (fun p => (p.1, HandlerVal.key key)),
    sent := sent, nextId := n }

/- ------------------------------------------------------------------ -/
/- Theorems.                                                          -/
/- ------------------------------------------------------------------ -/

/-- C2: the facade orders handler never reaches its reconciliation logic:
building the terminal-status list evaluates the attribute access
Status.Expired, and the Status enum has no member of that name (its
member is spelled EXPIRED), so every delivered OrderReport makes the
handler raise AttributeError and the open-orders cache is never
updated — neither removal on Canceled/Rejected/Expired nor upsert on any
other status happens. -/
theorem update_order_reports_always_attribute_error
    (order_report : OrderReport) (open_orders : List (String × OrderReport)) :
    BinanceWrapper._update_order_reports order_report open_orders =
      Except.error "AttributeError: Expired" := rfl

/-- C3: an inbound kline frame whose key has no registered fan-out event
is not logged-and-dropped: _kline_preprocessor indexes the subscriptions
dict directly and dispatch raises KeyError (evaluated here at a concrete
frame against an empty registry). -/
theorem kline_dispatch_unregistered_key_raises :
    (BinancePublicWS.empty : BinancePublicWS Nat)._msg_preprocessing
      (.klineEvent "BTCUSDT" "1m" false) = Except.error "KeyError" := rfl

/-- C9: evaluating the code at the failing input: a wallet handler is
registered under a fresh uuid token, then wallet_unsubscribe is called
with that token; the wallet eventer still holds the handler afterwards,
because the source body of wallet_unsubscribe removes the token from the
orders eventer instead. -/
theorem wallet_unsubscribe_leaves_wallet_handler :
    ((BinancePrivateWS.start.wallet_subscribe
        "11111111-1111-4111-8111-111111111111" (7 : Nat)).1.wallet_unsubscribe
        "11111111-1111-4111-8111-111111111111").wallet_eventer.handlers =
      [("11111111-1111-4111-8111-111111111111", 7)] := rfl

/-- C10: for every handler, the facade wallet_subscribe and
orders_subscribe return None while the underlying private client did mint
and return a token for the same registration, so the facade caller never
obtains a token for these handlers. -/
theorem facade_subscribe_discards_token (H : Type) (w : BinanceWrapperState H)
    (token : String) (handler : H) :
    (BinanceWrapper.wallet_subscribe w token handler).2 = none ∧
    (BinanceWrapper.orders_subscribe w token handler).2 = none ∧
    (w.private_ws.wallet_subscribe token handler).2 = token ∧
    (w.private_ws.orders_subscribe token handler).2 = token :=
  ⟨rfl, rfl, rfl, rfl⟩

/-- C4 counterexample: starting from a fresh open connection (logon sent
once on connect), a first failure acknowledgment produces exactly one
additional logon (two in total) — but a second failure acknowledgment
produces a third logon frame, refuting the claim that no third attempt
is made. -/
theorem logon_second_failure_sends_third_attempt :
    (((PrivateWSConn._on_connected { is_connected := true, sent := [] }).processAck
        (.logon 400)).logonCount = 2) ∧
    ((((PrivateWSConn._on_connected { is_connected := true, sent := [] }).processAck
        (.logon 400)).processAck (.logon 400)).logonCount = 3) := by
  constructor <;> rfl

/-- C4 amended: the logon retry is per-failure-acknowledgment, not
bounded overall: every logon acknowledgment with a non-200 status that
arrives while the connection is open causes exactly one additional logon
frame to be sent, including the second and every later failure. -/
theorem logon_retry_per_failure_ack (c : PrivateWSConn) (status : Nat)
    (hconn : c.is_connected = true) (hfail : status ≠ 200) :
    (c.processAck (.logon status)).logonCount = c.logonCount + 1 := by
  simp [PrivateWSConn.processAck, PrivateWSConn._log_on_subscription,
    PrivateWSConn.logonCount, hconn, hfail]

/-- C4 amended, witness: the retry fires at a concrete connected state
with one logon already sent and a 400-status acknowledgment. -/
theorem logon_retry_per_failure_ack_witness :
    (PrivateWSConn.processAck { is_connected := true, sent := ["session.logon"] }
        (.logon 400)).logonCount =
      ({ is_connected := true, sent := ["session.logon"] } : PrivateWSConn).logonCount
        + 1 :=
  logon_retry_per_failure_ack _ 400 rfl (by decide)

/-- C8: evaluating the code at the failing input: one handler is
subscribed to (BTCUSDT, 1m) under a fresh 36-character uuid token, and
kline_unsubscribe is then called with symbol and interval. The dict
comprehension in _unsubscribe iterates the handlers dict without .items(),
so each dict KEY — the uuid token string — is unpacked as a 2-tuple and
the call raises ValueError before any handler is removed or any
UNSUBSCRIBE frame is sent. -/
theorem kline_unsubscribe_by_key_raises_value_error :
    (BinancePublicWS.empty.kline_subscribe "BTCUSDT" "1m"
        "8d54f3a0-1c2e-4b7f-9a6d-0e5c4b3a2910" (0 : Nat)).1.kline_unsubscribe
        none (some "BTCUSDT") (some "1m") =
      Except.error "ValueError: too many values to unpack" := rfl

/-- C7: AsyncWSListener.start is a no-op when already started; on a
stopped listener it blocks until the connect loop signals the first
successful connection (signal within the reconnect_delay * 6 budget:
start returns without error and the listener is started and connected);
and when no signal arrives within that budget it returns ConnectionError
after tearing the listener down through stop, leaving it not started,
not connected, with no connect-loop task alive. -/
theorem ws_listener_start_bootstrap (l : AsyncWSListener)
    (first_signal : Option Rat) :
    (l.is_started = true → l.start first_signal = (none, l)) ∧
    (l.is_started = false →
      ((∀ t, first_signal = some t → t ≤ l.reconnect_delay * 6 →
          l.start first_signal =
            (none, { l with start_event := true, stop_event := false,
                            task_running := true })) ∧
       (∀ t, first_signal = some t → ¬t ≤ l.reconnect_delay * 6 →
          (l.start first_signal).1 = some "ConnectionError" ∧
          (l.start first_signal).2.is_started = false ∧
          (l.start first_signal).2.is_connected = false ∧
          (l.start first_signal).2.task_running = false) ∧
       (first_signal = none →
          (l.start first_signal).1 = some "ConnectionError" ∧
          (l.start first_signal).2.is_started = false ∧
          (l.start first_signal).2.is_connected = false ∧
          (l.start first_signal).2.task_running = false))) := by
  refine ⟨fun hs => ?_, fun hs => ⟨fun t ht hle => ?_, fun t ht hgt => ?_, fun hn => ?_⟩⟩
  · simp [AsyncWSListener.start, hs]
  · subst ht
    simp [AsyncWSListener.start, hs, hle]
  · subst ht
    have hs2 : l.stop_event = true := by
      simpa [AsyncWSListener.is_started] using hs
    simp [AsyncWSListener.start, AsyncWSListener.stop, AsyncWSListener.is_started,
      AsyncWSListener.is_connected, hs2, hgt]
  · subst hn
    have hs2 : l.stop_event = true := by
      simpa [AsyncWSListener.is_started] using hs
    simp [AsyncWSListener.start, AsyncWSListener.stop, AsyncWSListener.is_started,
      AsyncWSListener.is_connected, hs2]

/-- C7 witness: a freshly constructed listener with delay 5 started with
a signal at time 7 (inside the 30-budget) succeeds, and started with no
signal at all fails with ConnectionError and ends stopped. -/
theorem ws_listener_start_bootstrap_witness :
    ((AsyncWSListener.init 5).start (some 7) =
      (none, { reconnect_delay := 5, start_event := true, stop_event := false,
               task_running := true })) ∧
    (((AsyncWSListener.init 5).start none).1 = some "ConnectionError" ∧
     ((AsyncWSListener.init 5).start none).2.is_started = false ∧
     ((AsyncWSListener.init 5).start none).2.is_connected = false ∧
     ((AsyncWSListener.init 5).start none).2.task_running = false) := by
  have h := ws_listener_start_bootstrap (AsyncWSListener.init 5) (some 7)
  have h2 := ws_listener_start_bootstrap (AsyncWSListener.init 5) none
  exact ⟨(h.2 rfl).1 7 rfl (by norm_num [AsyncWSListener.init]),
    (h2.2 rfl).2.2 rfl⟩

/-- Folding an append of singletons is the same as mapping: the shared
shape of the emit delivery builders. -/
theorem foldl_append_singleton_eq_map {α β : Type} (f : α → β) :
    ∀ (l : List α) (acc : List β),
      l.foldl (fun a x => a ++ [f x]) acc = acc ++ l.map f := by
  intro l
  induction l with
  | nil => intro acc; simp
  | cons x xs ih => intro acc; simp [ih]

/-- The deliveries of one emit are exactly the snapshotted handler
entries paired with the payload. -/
theorem emitDeliveries_eq_map {H P : Type} (e : AsyncEvent H) (payload : P) :
    e.emitDeliveries payload = e.handlers.map (fun kv => (kv.2, payload)) := by
  simpa using foldl_append_singleton_eq_map (fun kv : String × H => (kv.2, payload))
    e.handlers []

/-- Counting a pairing map: pairing every snapshot value with a fixed
payload preserves occurrence counts. -/
theorem count_map_pair {H P : Type} [DecidableEq H] [DecidableEq P]
    (l : List (String × H)) (h : H) (payload : P) :
    (l.map (fun kv => (kv.2, payload))).count (h, payload) =
      (l.map Prod.snd).count h := by
  induction l with
  | nil => rfl
  | cons x xs ih =>
    simp [List.count_cons, ih, Prod.ext_iff]

/-- C5: emit delivers to exactly the handler entries present in the map
at snapshot time, each exactly once, all with the same payload, and the
delivery set is unaffected by add/remove calls that the lock serializes
after the snapshot: a handler added after the snapshot gets nothing from
this emit, a handler removed after the snapshot still gets its one
delivery, and the deliveries equal those of an emit with no concurrent
mutation at all. -/
theorem emit_snapshot_delivery (H P : Type) [DecidableEq H] [DecidableEq P]
    (ev : AsyncEvent H) (payload : P) (muts : List (EventMutation H)) :
    ((ev.emitWithMutations payload muts).1 =
      ev.handlers.map (fun kv => (kv.2, payload))) ∧
    (∀ h : H, (ev.emitWithMutations payload muts).1.count (h, payload) =
      ev.snapshot.count h) ∧
    (∀ t h, (t, h) ∈ ev.handlers →
      (h, payload) ∈ (ev.emitWithMutations payload muts).1) ∧
    ((ev.emitWithMutations payload muts).1 =
      (ev.emitWithMutations payload []).1) := by
  have hd : (ev.emitWithMutations payload muts).1 =
      ev.handlers.map (fun kv => (kv.2, payload)) :=
    emitDeliveries_eq_map ev payload
  refine ⟨hd, fun h => ?_, fun t h hm => ?_, ?_⟩
  · rw [hd, AsyncEvent.snapshot, count_map_pair]
  · rw [hd]
    exact List.mem_map.mpr ⟨(t, h), hm, rfl⟩
  · rw [hd]
    exact (emitDeliveries_eq_map ev payload).symm

/-- C5 witness: a concrete emit over two registered handlers, racing with
an add of a third token and a remove of the first: the deliveries are
exactly the two snapshotted entries with the payload, and the removed
handler still receives its delivery. -/
theorem emit_snapshot_delivery_witness :
    ((AsyncEvent.emitWithMutations (⟨[("a", 0), ("b", 1)]⟩ : AsyncEvent Nat) 5
        [.addH "c" 2, .removeH "a"]).1 = [(0, 5), (1, 5)]) ∧
    ((0, 5) ∈ (AsyncEvent.emitWithMutations (⟨[("a", 0), ("b", 1)]⟩ : AsyncEvent Nat)
        5 [.addH "c" 2, .removeH "a"]).1) := by
  have h := emit_snapshot_delivery Nat Nat (⟨[("a", 0), ("b", 1)]⟩ : AsyncEvent Nat)
    5 [.addH "c" 2, .removeH "a"]
  exact ⟨h.1.trans rfl, h.2.2.1 "a" 0 (by decide)⟩

/-- The run of one emit with fallible handlers records one invocation per
snapshot entry, in snapshot order. -/
theorem emitRun_eq_map {P E : Type} (ev : AsyncEvent (P → Except E Unit))
    (payload : P) :
    ev.emitRun payload = ev.handlers.map (fun kv => (kv.1, kv.2 payload)) := by
  simpa using foldl_append_singleton_eq_map
    (fun kv : String × (P → Except E Unit) => (kv.1, kv.2 payload)) ev.handlers []

/-- C6: handler failures during emit are isolated: even when some
snapshotted handler fails on the payload, every handler entry of the
snapshot is still invoked with that payload (its invocation appears in
the run) and the run performs exactly one invocation per snapshot
entry — gather with return_exceptions set to False does not cancel the
sibling tasks. -/
theorem emit_failure_isolation (P E : Type) (ev : AsyncEvent (P → Except E Unit))
    (payload : P) (tf : String) (hf : P → Except E Unit) (e : E)
    (hmem : (tf, hf) ∈ ev.handlers) (hfail : hf payload = .error e) :
    (∀ t h, (t, h) ∈ ev.handlers → (t, h payload) ∈ ev.emitRun payload) ∧
    (ev.emitRun payload).length = ev.handlers.length := by
  constructor
  · intro t h hm
    rw [emitRun_eq_map]
    exact List.mem_map.mpr ⟨(t, h), hm, rfl⟩
  · rw [emitRun_eq_map]
    exact List.length_map _ _

/-- C6 witness: with a failing handler under token bad and a succeeding
one under token good in the same snapshot, the emit run still contains
the invocation of the good handler, and both snapshot entries were
invoked. -/
theorem emit_failure_isolation_witness :
    (("good", Except.ok ()) ∈
      (AsyncEvent.emitRun (⟨[("bad", fun _ => Except.error "boom"),
        ("good", fun _ => Except.ok ())]⟩ : AsyncEvent (Nat → Except String Unit)) 0)) ∧
    ((AsyncEvent.emitRun (⟨[("bad", fun _ => Except.error "boom"),
        ("good", fun _ => Except.ok ())]⟩ : AsyncEvent (Nat → Except String Unit)) 0).length
      = 2) := by
  have h := emit_failure_isolation Nat String
    (⟨[("bad", fun _ => Except.error "boom"),
       ("good", fun _ => Except.ok ())]⟩ : AsyncEvent (Nat → Except String Unit))
    0 "bad" (fun _ => Except.error "boom") "boom" (List.Mem.head _) rfl
  exact ⟨h.1 "good" (fun _ => Except.ok ())
      (List.Mem.tail _ (List.Mem.head _)), h.2.trans rfl⟩

section DictLemmas

variable {κ β γ : Type} [DecidableEq κ]

/-- A key outside the key list looks up to nothing. -/
theorem dlookup_of_not_mem (l : List (κ × β)) (k : κ)
    (hk : k ∉ l.map Prod.fst) : dlookup l k = none := by
  induction l with
  | nil => rfl
  | cons p ps ih =>
    simp only [List.map_cons, List.mem_cons] at hk
    push_neg at hk
    simp [dlookup, hk.1, ih hk.2, Ne.symm hk.1]

/-- A key of the key list looks up to something. -/
theorem dlookup_isSome_of_mem (l : List (κ × β)) (k : κ)
    (hk : k ∈ l.map Prod.fst) : (dlookup l k).isSome := by
  induction l with
  | nil => simp at hk
  | cons p ps ih =>
    by_cases hp : p.1 = k
    · simp [dlookup, hp]
    · simp only [List.map_cons, List.mem_cons] at hk
      rcases hk with hk | hk

      · exact absurd hk.symm hp
      · simp [dlookup, hp, ih hk]

/-- Assigning a fresh key appends the binding. -/
theorem dinsert_of_not_mem (l : List (κ × β)) (k : κ) (v : β)
    (hk : k ∉ l.map Prod.fst) : dinsert l k v = l ++ [(k, v)] := by
  induction l with
  | nil => rfl
  | cons p ps ih =>
    simp only [List.map_cons, List.mem_cons] at hk
    push_neg at hk
    simp [dinsert, hk.1, ih hk.2, Ne.symm hk.1]

/-- Lookup commutes with a key-preserving constant-value map. -/
theorem dlookup_mapval (l : List (κ × β)) (k : κ) (c : γ) :
    dlookup (l.map (fun p => (p.1, c))) k = (dlookup l k).map (fun _ => c) := by
  induction l with
  | nil => rfl
  | cons p ps ih =>
    by_cases hp : p.1 = k
    · simp [dlookup, hp]
    · simp [dlookup, hp, ih]

/-- Removal commutes with a key-preserving constant-value map. -/
theorem dremove_mapval (l : List (κ × β)) (k : κ) (c : γ) :
    dremove (l.map (fun p => (p.1, c))) k =
      (dremove l k).map (fun p => (p.1, c)) := by
  induction l with
  | nil => rfl
  | cons p ps ih =>
    by_cases hp : p.1 = k
    · simp [dremove, hp]
    · simp [dremove, hp, ih]

/-- Filtering away a key that does not occur changes nothing. -/
theorem filter_ne_eq_self_of_not_mem (l : List (κ × β)) (k : κ)
    (hk : k ∉ l.map Prod.fst) :
    l.filter (fun p => p.1 ≠ k) = l := by
  induction l with
  | nil => rfl
  | cons p ps ih =>
    simp only [List.map_cons, List.mem_cons] at hk
    push_neg at hk
    rw [List.filter_cons, if_pos (decide_eq_true (Ne.symm hk.1)), ih hk.2]

/-- When the keys are unique, removal is filtering the key away. -/
theorem dremove_eq_filter_of_nodup (l : List (κ × β)) (k : κ)
    (hnd : (l.map Prod.fst).Nodup) :
    dremove l k = l.filter (fun p => p.1 ≠ k) := by
  induction l with
  | nil => rfl
  | cons p ps ih =>
    simp only [List.map_cons, List.nodup_cons] at hnd
    by_cases hp : p.1 = k
    · simp only [dremove, List.filter_cons]
      rw [if_pos hp, if_neg (by simp [hp])]
      exact (filter_ne_eq_self_of_not_mem ps k (hp ▸ hnd.1)).symm
    · simp only [dremove, List.filter_cons]
      rw [if_neg hp, if_pos (decide_eq_true hp), ih hnd.2]

end DictLemmas

/-- First kline_subscribe on a fresh client: sends the one SUBSCRIBE
frame (creator id 1), creates the channel and registers the handler. -/
theorem kline_subscribe_empty {H : Type} (symbol time_interval t : String) (h : H) :
    (BinancePublicWS.empty : BinancePublicWS H).kline_subscribe symbol
        time_interval t h =
      (canonicalPWS (WSKeyCreator.kline_key symbol time_interval) [(t, h)]
        [PublicSubscriptionCreator.kline_subscription_msg 1
          (WSKeyCreator.kline_key symbol time_interval).symbol
          (WSKeyCreator.kline_key symbol time_interval).time_interval] 2, t) := by
  simp [BinancePublicWS.kline_subscribe, BinancePublicWS._subscribe,
    BinancePublicWS.empty, canonicalPWS, dlookup, dinsert, dmodify,
    AsyncEvent.add, AsyncEvent.empty, BinancePublicWS._make_subscription_msg]

/-- Further kline_subscribe calls for an already-created channel: no
upstream frame, the fresh token is appended to the handlers dict and the
handler to the fan-out event. -/
theorem kline_subscribe_nonempty {H : Type} (symbol time_interval t : String)
    (h : H) (l : List (String × H)) (sent : List ControlMsg) (n : Nat)
    (ht : t ∉ l.map Prod.fst) :
    (canonicalPWS (WSKeyCreator.kline_key symbol time_interval) l sent
        n).kline_subscribe symbol time_interval t h =
      (canonicalPWS (WSKeyCreator.kline_key symbol time_interval) (l ++ [(t, h)])
        sent n, t) := by
  have ht2 : t ∉ (l.map (fun p =>
      (p.1, HandlerVal.key (WSKeyCreator.kline_key symbol time_interval)))).map
        Prod.fst := by
    simpa using ht
  simp [BinancePublicWS.kline_subscribe, BinancePublicWS._subscribe, canonicalPWS,
    dlookup, dmodify, AsyncEvent.add,
    dinsert_of_not_mem _ _ _ ht2, dlookup_of_not_mem _ _ ht]

/-- Batch-subscribing more distinct tokens onto an existing channel keeps
the canonical single-channel shape and sends nothing upstream. -/
theorem subscribeAll_canonical {H : Type} (symbol time_interval : String) :
    ∀ (rest l : List (String × H)) (sent : List ControlMsg) (n : Nat),
      (((l ++ rest).map Prod.fst).Nodup) →
      subscribeAll
          (canonicalPWS (WSKeyCreator.kline_key symbol time_interval) l sent n)
          symbol time_interval rest =
        canonicalPWS (WSKeyCreator.kline_key symbol time_interval) (l ++ rest)
          sent n := by
  intro rest
  induction rest with
  | nil =>
    intro l sent n hnd
    simp [subscribeAll]
  | cons p ps ih =>
    intro l sent n hnd
    have hp : p.1 ∉ l.map Prod.fst := by
      simp only [List.map_append, List.map_cons] at hnd
      exact fun hm =>
        (List.nodup_append.mp hnd).2.2 hm (List.mem_cons_self _ _)
    have step := kline_subscribe_nonempty symbol time_interval p.1 p.2 l sent n hp
    have rec1 := ih (l ++ [p]) sent n (by simpa [List.append_assoc] using hnd)
    simp only [subscribeAll, List.foldl_cons] at rec1 ⊢
    rw [step]
    simpa [List.append_assoc] using rec1

/-- Subscribing a nonempty batch of distinct tokens to one key from a
fresh client sends exactly one SUBSCRIBE frame and reaches the canonical
single-channel state. -/
theorem subscribeAll_from_empty {H : Type} (symbol time_interval : String)
    (xs : List (String × H)) (hxs : xs ≠ []) (hnd : (xs.map Prod.fst).Nodup) :
    subscribeAll BinancePublicWS.empty symbol time_interval xs =
      canonicalPWS (WSKeyCreator.kline_key symbol time_interval) xs
        [PublicSubscriptionCreator.kline_subscription_msg 1
          (WSKeyCreator.kline_key symbol time_interval).symbol
          (WSKeyCreator.kline_key symbol time_interval).time_interval] 2 := by
  cases xs with
  | nil => cases hxs rfl
  | cons p ps =>
    have rec1 := subscribeAll_canonical symbol time_interval ps [p]
      [PublicSubscriptionCreator.kline_subscription_msg 1
        (WSKeyCreator.kline_key symbol time_interval).symbol
        (WSKeyCreator.kline_key symbol time_interval).time_interval] 2
      (by simpa using hnd)
    simp only [subscribeAll, List.foldl_cons] at rec1 ⊢
    rw [kline_subscribe_empty]
    simpa using rec1

/-- Token unsubscribe on the canonical single-channel state when other
handlers remain: the handler and its token are removed and nothing is
sent upstream. -/
theorem kline_unsubscribe_token_step {H : Type} (key : KlineKey)
    (l : List (String × H)) (sent : List ControlMsg) (n : Nat) (t : String)
    (hmem : t ∈ l.map Prod.fst) (hne : t ≠ "")
    (hnd : (l.map Prod.fst).Nodup)
    (hrem : l.filter (fun p => p.1 ≠ t) ≠ []) :
    (canonicalPWS key l sent n).kline_unsubscribe (some t) none none =
      .ok (canonicalPWS key (l.filter (fun p => p.1 ≠ t)) sent n) := by
  obtain ⟨v, hv⟩ := Option.isSome_iff_exists.mp (dlookup_isSome_of_mem l t hmem)
  have hfl : dremove l t = l.filter (fun p => p.1 ≠ t) :=
    dremove_eq_filter_of_nodup l t hnd
  have hlk : dlookup (l.map (fun p => (p.1, HandlerVal.key key))) t =
      some (HandlerVal.key key) := by
    rw [dlookup_mapval, hv]
    rfl
  have hrm : dremove (l.map (fun p => (p.1, HandlerVal.key key))) t =
      (l.filter (fun p => p.1 ≠ t)).map (fun p => (p.1, HandlerVal.key key)) := by
    rw [dremove_mapval, hfl]
  have hemp : (dremove l t).isEmpty = false := by
    rw [hfl]
    cases hfil : l.filter (fun p => p.1 ≠ t) with
    | nil => exact absurd hfil hrem
    | cons a as => rfl
  simp [BinancePublicWS.kline_unsubscribe, BinancePublicWS._unsubscribe,
    canonicalPWS, hne, hlk, hrm, hfl, dlookup, dmodify,
    AsyncEvent.remove, AsyncEvent.is_empty]
  rw [hemp]
  rfl

/-- Token unsubscribe on the canonical single-channel state when it is
the last handler: the channel is deleted from both dicts and exactly one
UNSUBSCRIBE frame is sent. -/
theorem kline_unsubscribe_token_last {H : Type} (key : KlineKey)
    (l : List (String × H)) (sent : List ControlMsg) (n : Nat) (t : String)
    (hmem : t ∈ l.map Prod.fst) (hne : t ≠ "")
    (hnd : (l.map Prod.fst).Nodup)
    (hrem : l.filter (fun p => p.1 ≠ t) = []) :
    (canonicalPWS key l sent n).kline_unsubscribe (some t) none none =
      .ok ({ subscriptions := [], handlers := [],
             sent := sent ++ [PublicSubscriptionCreator.kline_unsubscription_msg n
               key.symbol key.time_interval],
             nextId := n + 1 } : BinancePublicWS H) := by
  obtain ⟨v, hv⟩ := Option.isSome_iff_exists.mp (dlookup_isSome_of_mem l t hmem)
  have hfl : dremove l t = l.filter (fun p => p.1 ≠ t) :=
    dremove_eq_filter_of_nodup l t hnd
  have hlk : dlookup (l.map (fun p => (p.1, HandlerVal.key key))) t =
      some (HandlerVal.key key) := by
    rw [dlookup_mapval, hv]
    rfl
  have hrm : dremove (l.map (fun p => (p.1, HandlerVal.key key))) t =
      (l.filter (fun p => p.1 ≠ t)).map (fun p => (p.1, HandlerVal.key key)) := by
    rw [dremove_mapval, hfl]
  have hemp : (dremove l t).isEmpty = true := by
    rw [hfl, hrem]
    rfl
  simp [BinancePublicWS.kline_unsubscribe, BinancePublicWS._unsubscribe,
    canonicalPWS, hne, hlk, hrm, hfl, hrem, dlookup, dmodify,
    AsyncEvent.remove, AsyncEvent.is_empty]
  rw [hemp]
  have hrem2 : List.filter (fun p => !decide (p.1 = t)) l = [] := by
    simpa using hrem
  simp [dlookup, dremove, dmodify, BinancePublicWS._make_subscription_msg,
    PublicSubscriptionCreator.kline_unsubscription_msg, hrem2]
  rfl

/-- Unsubscribing any duplicate-free batch of live tokens, in any order,
sends nothing upstream as long as at least one handler survives: the
canonical state just loses exactly the entries whose tokens are in the
batch. -/
theorem unsubscribeTokens_removes {H : Type} (key : KlineKey) :
    ∀ (ts : List String) (l : List (String × H)) (sent : List ControlMsg) (n : Nat),
      (l.map Prod.fst).Nodup →
      (∀ s ∈ ts, s ≠ "") →
      ts.Nodup →
      (∀ s ∈ ts, s ∈ l.map Prod.fst) →
      l.filter (fun p => p.1 ∉ ts) ≠ [] →
      unsubscribeTokens (canonicalPWS key l sent n) ts =
        .ok (canonicalPWS key (l.filter (fun p => p.1 ∉ ts)) sent n) := by
  intro ts
  induction ts with
  | nil =>
    intro l sent n hnd hne hTsNd hsub hsurv
    simp [unsubscribeTokens]
    rfl
  | cons t ts2 ih =>
    intro l sent n hnd hne hTsNd hsub hsurv
    have ht_mem : t ∈ l.map Prod.fst := hsub t (List.mem_cons_self _ _)
    have ht_ne : t ≠ "" := hne t (List.mem_cons_self _ _)
    have ht_not2 : t ∉ ts2 := (List.nodup_cons.mp hTsNd).1
    have hff : (l.filter (fun p => p.1 ≠ t)).filter (fun p => p.1 ∉ ts2) =
        l.filter (fun p => p.1 ∉ t :: ts2) := by
      rw [List.filter_filter]
      apply List.filter_congr
      intro p _
      by_cases h1 : p.1 = t <;> by_cases h2 : p.1 ∈ ts2 <;> simp [h1, h2]
    have hstep_surv : l.filter (fun p => p.1 ≠ t) ≠ [] := by
      intro h0
      exact hsurv (by rw [← hff, h0]; rfl)
    have step := kline_unsubscribe_token_step key l sent n t ht_mem ht_ne hnd
      hstep_surv
    have hnd2 : ((l.filter (fun p => p.1 ≠ t)).map Prod.fst).Nodup :=
      List.Nodup.sublist (List.Sublist.map Prod.fst (List.filter_sublist l)) hnd
    have hsub2 : ∀ s ∈ ts2, s ∈ (l.filter (fun p => p.1 ≠ t)).map Prod.fst := by
      intro s hs
      obtain ⟨p, hp, hps⟩ := List.mem_map.mp (hsub s (List.mem_cons_of_mem _ hs))
      have hsn : p.1 ≠ t := by
        rw [hps]
        intro he
        exact ht_not2 (he ▸ hs)
      exact List.mem_map.mpr ⟨p, List.mem_filter.mpr ⟨hp, decide_eq_true hsn⟩, hps⟩
    have hsurv2 : (l.filter (fun p => p.1 ≠ t)).filter (fun p => p.1 ∉ ts2) ≠ [] := by
      rw [hff]
      exact hsurv
    have rec1 := ih (l.filter (fun p => p.1 ≠ t)) sent n hnd2
      (fun s hs => hne s (List.mem_cons_of_mem _ hs))
      (List.nodup_cons.mp hTsNd).2 hsub2 hsurv2
    rw [hff] at rec1
    simp only [unsubscribeTokens, List.foldlM_cons] at rec1 ⊢
    rw [step]
    simpa using rec1

/-- C1: subscribing N distinct fresh-token handlers to one
(symbol, interval) key on a fresh client sends exactly one upstream
SUBSCRIBE frame; unsubscribing any N-1 of the tokens (here: all but the
last-registered one, in an arbitrary order ts) sends nothing upstream;
unsubscribing the last remaining token sends exactly one upstream
UNSUBSCRIBE frame and deletes the key from both the subscriptions and
the handlers bookkeeping. -/
theorem kline_single_upstream_per_key (H : Type) (symbol time_interval : String)
    (l : List (String × H)) (t : String) (h : H) (ts : List String)
    (hnd : ((l ++ [(t, h)]).map Prod.fst).Nodup)
    (hne : ∀ p ∈ l ++ [(t, h)], p.1 ≠ "")
    (hperm : ts.Perm (l.map Prod.fst)) :
    ((subscribeAll BinancePublicWS.empty symbol time_interval
        (l ++ [(t, h)])).sent =
      [PublicSubscriptionCreator.kline_subscription_msg 1
        (WSKeyCreator.kline_key symbol time_interval).symbol
        (WSKeyCreator.kline_key symbol time_interval).time_interval]) ∧
    (∃ st2, unsubscribeTokens
        (subscribeAll BinancePublicWS.empty symbol time_interval (l ++ [(t, h)]))
        ts = .ok st2 ∧
      st2.sent = (subscribeAll BinancePublicWS.empty symbol time_interval
        (l ++ [(t, h)])).sent ∧
      ∃ st3, st2.kline_unsubscribe (some t) none none = .ok st3 ∧
        st3.sent = st2.sent ++
          [PublicSubscriptionCreator.kline_unsubscription_msg 2
            (WSKeyCreator.kline_key symbol time_interval).symbol
            (WSKeyCreator.kline_key symbol time_interval).time_interval] ∧
        st3.subscriptions = [] ∧ st3.handlers = []) := by
  have hxs : l ++ [(t, h)] ≠ [] := by simp
  have hsub_st := subscribeAll_from_empty symbol time_interval (l ++ [(t, h)])
    hxs hnd
  have hndk : ((l.map Prod.fst) ++ [t]).Nodup := by simpa using hnd
  have htmem : t ∉ l.map Prod.fst := fun hm =>
    (List.nodup_append.mp hndk).2.2 hm (by simp)
  have hkeysl : (l.map Prod.fst).Nodup := (List.nodup_append.mp hndk).1
  have hts_nd : ts.Nodup := hperm.nodup_iff.mpr hkeysl
  have hne_ts : ∀ s ∈ ts, s ≠ "" := by
    intro s hs
    obtain ⟨p, hp, hfp⟩ := List.mem_map.mp (hperm.mem_iff.mp hs)
    exact hfp ▸ hne p (List.mem_append_left _ hp)
  have hsub_ts : ∀ s ∈ ts, s ∈ (l ++ [(t, h)]).map Prod.fst := by
    intro s hs
    have := hperm.mem_iff.mp hs
    simp only [List.map_append]
    exact List.mem_append_left _ this
  have htts : t ∉ ts := fun hm => htmem (hperm.mem_iff.mp hm)
  have hfv : (l ++ [(t, h)]).filter (fun p => p.1 ∉ ts) = [(t, h)] := by
    rw [List.filter_append]
    have h1 : l.filter (fun p => p.1 ∉ ts) = [] := by
      rw [List.filter_eq_nil_iff]
      intro p hp
      have : p.1 ∈ ts := hperm.mem_iff.mpr (List.mem_map_of_mem Prod.fst hp)
      simp [this]
    have h2 : List.filter (fun p => decide (p.1 ∉ ts)) [(t, h)] = [(t, h)] := by
      simp [List.filter_cons, htts]
    rw [h1, h2]
    rfl
  have hbatch := unsubscribeTokens_removes
    (WSKeyCreator.kline_key symbol time_interval) ts (l ++ [(t, h)])
    [PublicSubscriptionCreator.kline_subscription_msg 1
      (WSKeyCreator.kline_key symbol time_interval).symbol
      (WSKeyCreator.kline_key symbol time_interval).time_interval] 2
    hnd hne_ts hts_nd hsub_ts (by rw [hfv]; simp)
  rw [hfv] at hbatch
  have hlast := kline_unsubscribe_token_last
    (WSKeyCreator.kline_key symbol time_interval) [(t, h)]
    [PublicSubscriptionCreator.kline_subscription_msg 1
      (WSKeyCreator.kline_key symbol time_interval).symbol
      (WSKeyCreator.kline_key symbol time_interval).time_interval] 2 t
    (by simp) (hne (t, h) (List.mem_append_right _ (by simp))) (by simp)
    (by simp)
  rw [hsub_st]
  refine ⟨rfl, ⟨canonicalPWS (WSKeyCreator.kline_key symbol time_interval)
    [(t, h)]
    [PublicSubscriptionCreator.kline_subscription_msg 1
      (WSKeyCreator.kline_key symbol time_interval).symbol
      (WSKeyCreator.kline_key symbol time_interval).time_interval] 2,
    hbatch, rfl, ?_⟩⟩
  exact ⟨_, hlast, rfl, rfl, rfl⟩

/-- C1 witness: three distinct tokens on (BTCUSDT, 1m); the first two are
unsubscribed out of subscription order, the third last. -/
theorem kline_single_upstream_per_key_witness :
    ((subscribeAll BinancePublicWS.empty "BTCUSDT" "1m"
        ([("aa1", 10), ("bb2", 20)] ++ [("cc3", (30 : Nat))])).sent =
      [PublicSubscriptionCreator.kline_subscription_msg 1
        (WSKeyCreator.kline_key "BTCUSDT" "1m").symbol
        (WSKeyCreator.kline_key "BTCUSDT" "1m").time_interval]) ∧
    (∃ st2, unsubscribeTokens
        (subscribeAll BinancePublicWS.empty "BTCUSDT" "1m"
          ([("aa1", 10), ("bb2", 20)] ++ [("cc3", (30 : Nat))]))
        ["bb2", "aa1"] = .ok st2 ∧
      st2.sent = (subscribeAll BinancePublicWS.empty "BTCUSDT" "1m"
        ([("aa1", 10), ("bb2", 20)] ++ [("cc3", (30 : Nat))])).sent ∧
      ∃ st3, st2.kline_unsubscribe (some "cc3") none none = .ok st3 ∧
        st3.sent = st2.sent ++
          [PublicSubscriptionCreator.kline_unsubscription_msg 2
            (WSKeyCreator.kline_key "BTCUSDT" "1m").symbol
            (WSKeyCreator.kline_key "BTCUSDT" "1m").time_interval] ∧
        st3.subscriptions = [] ∧ st3.handlers = []) :=
  kline_single_upstream_per_key Nat "BTCUSDT" "1m" [("aa1", 10), ("bb2", 20)]
    "cc3" 30 ["bb2", "aa1"] (by decide) (by decide) (by decide)

end TFStrategy
